import Mathlib

/-!
# Verification development for `profs.py`

A shallow embedding of the snapshot builder in `profs.py`: the path
canonicalizer (`Paths`), the fixed-width metadata record (`StatObject`),
the identity table and tree walker (`FileSystem.new_node`,
`FileSystem._init_from_paths`), and the snapshot codec
(`FileSystem.export_fs` / `FileSystem.import_fs`).

Conventions of the embedding:
* Python strings are `String`, byte sequences are `List Nat` (each entry one
  byte value), machine integers are `Nat` / `Int` with explicit `% 2 ^ w`
  where overflow matters.
* The real filesystem is an abstract environment `FSEnv` supplying the
  results of `os.stat` and `os.listdir`.
* A Python exception is a value of `PyError`; code that can raise returns
  `Except PyError _`.
* Python `dict` (which preserves insertion order) is an association list
  `List (String × Nat)` where a new key is appended at the end; Python
  `set` is a `List String` with membership-tested insertion (only
  membership in the set is ever observed).
* `print` calls that report a skipped entry are modelled as `Warning`
  values appended to an event log; the progress counter print in
  `new_node` (gated on the `progress` flag) and the exact text of the
  messages are elided.
-/

namespace Profs

/-- The Python exceptions that the modelled code can raise.
`fuelOut` is an artifact of the bounded-recursion model of the tree walk:
it is returned only when the recursion fuel runs out and corresponds to no
exception of the program. -/
inductive PyError where
  | fileNotFoundError
  | assertionError
  | typeError
  | indexError
  | valueErrorDuplicate (name : String)
  | valueErrorNulByte
  | valueErrorNotUnder (path base : String)
  | valueErrorBadInt (s : String)
  | fuelOut
deriving DecidableEq, Repr

/-- The warning prints of the walk (`profs.py` lines 205, 208, 212, 226),
carrying the data that the corresponding `print` call formats. -/
inductive Warning where
  | crossDevice (canonical_path : String)
  | tooLarge (canonical_path : String) (size : Int)
  | duplicateName (name canonical_path : String)
  | permissionDenied (canonical_path : String)
deriving DecidableEq, Repr

/-! ## String helpers mirroring Python's built-ins

Python string operations are re-implemented over the character list of a
`String` (rather than through the byte-indexed standard-library
functions) so that every definition evaluates on concrete inputs. -/

/-- The NUL character. -/
def nulChar : Char := '\x00'

/-- Character-list prefix test (the core of `str.startswith`). -/
def listPrefix : List Char → List Char → Bool
  | [], _ => true
  | _ :: _, [] => false
  | a :: as, b :: bs => a = b && listPrefix as bs

/-- Python `s.startswith(pre)`. -/
def pyStartswith (s pre : String) : Bool := listPrefix pre.data s.data

/-- Python `s.endswith(suf)`. -/
def pyEndswith (s suf : String) : Bool := listPrefix suf.data.reverse s.data.reverse

/-- Python `len(s)` (a count of characters). -/
def pyLen (s : String) : Nat := s.data.length

/-- Python `s[n:]`: drop the first `n` characters (empty when `n` is at
least the length). -/
def pyDrop (s : String) (n : Nat) : String := String.mk (s.data.drop n)

/-- Python `c in s` for a single character. -/
def pyContainsChar (s : String) (c : Char) : Bool := s.data.contains c

/-- Helper of `pySplitChar`: split the remaining characters at each
separator, `acc` holding the current piece reversed. -/
def splitCharAux (c : Char) : List Char → List Char → List String
  | [], acc => [String.mk acc.reverse]
  | x :: xs, acc =>
    if x = c then String.mk acc.reverse :: splitCharAux c xs []
    else splitCharAux c xs (x :: acc)

/-- Python `s.split(c)` for a one-character separator. -/
def pySplitChar (s : String) (c : Char) : List String := splitCharAux c s.data []

/-- `sep.join(pieces)`. -/
def joinWith (sep : String) : List String → String
  | [] => ""
  | [x] => x
  | x :: xs => x ++ sep ++ joinWith sep xs

/-- Decimal numeral parser: accumulate digits, failing on any other
character. -/
def parseNatAux : List Char → Nat → Option Nat
  | [], acc => some acc
  | c :: cs, acc =>
    if 48 ≤ c.toNat ∧ c.toNat ≤ 57 then parseNatAux cs (10 * acc + (c.toNat - 48))
    else none

/-- Parse a nonempty all-digit string as a natural number. -/
def pyParseNat (s : String) : Option Nat :=
  match s.data with
  | [] => none
  | cs => parseNatAux cs 0

/-- The ASCII whitespace characters removed by Python's `str.strip()`. -/
def isPySpace (c : Char) : Bool :=
  c = ' ' || c = '\t' || c = '\n' || c = '\r' || c = '\x0b' || c = '\x0c'

/-- Python `str.strip()`: remove leading and trailing whitespace. -/
def pyStrip (s : String) : String :=
  String.mk (((s.data.dropWhile isPySpace).reverse.dropWhile isPySpace).reverse)

/-- Python `path[:path.index(chr(0))]` for a string that contains a NUL:
the prefix before the first NUL byte. -/
def takeUntilNul (s : String) : String :=
  String.mk (s.data.takeWhile (fun c => c ≠ nulChar))

/-- Python `int(s)` restricted to the unsigned decimals the codec writes:
strip whitespace and parse a decimal numeral, raising `ValueError`
otherwise. -/
def parseNatPy (s : String) : Except PyError Nat :=
  match pyParseNat (pyStrip s) with
  | some n => .ok n
  | none => .error (.valueErrorBadInt s)

/-! ## Path helpers mirroring `posixpath` -/

/-- `os.path.join(a, b)` (POSIX, two arguments). -/
def joinPath (a b : String) : String :=
  if pyStartswith b "/" then b
  else if a = "" || pyEndswith a "/" then a ++ b
  else a ++ "/" ++ b

/-- `os.path.normpath` (POSIX): collapse `//`, `.` and `..` components
purely lexically, never consulting the filesystem. -/
def normpath (p : String) : String :=
  if p = "" then "."
  else
    let initialSlashes : Nat :=
      if pyStartswith p "/" then
        if pyStartswith p "//" && !(pyStartswith p "///") then 2 else 1
      else 0
    let comps := pySplitChar p '/'
    let newComps := comps.foldl (fun acc comp =>
      if comp = "" || comp = "." then acc
      else if comp ≠ ".." ∨ (initialSlashes = 0 ∧ acc = []) ∨
          (acc ≠ [] ∧ acc.getLast? = some "..") then acc ++ [comp]
      else if acc ≠ [] then acc.dropLast
      else acc) []
    let res := String.mk (List.replicate initialSlashes '/') ++
      joinWith "/" newComps
    if res = "" then "." else res

/-- `os.path.abspath` for an absolute argument: pure normalization, no
symlink resolution.  Every call site in `profs.py` passes an absolute
path (`base` is produced by `os.path.abspath(args.base)` at line 265, and
`os.path.join(base, ...)` of an absolute `base` is absolute). -/
def abspath (p : String) : String := normpath p

/-- `stat.S_ISDIR`: the file-type bits of the mode equal `S_IFDIR`. -/
def S_ISDIR (m : Nat) : Bool := m &&& 0o170000 = 0o040000

/-- `stat.S_ISREG`: the file-type bits of the mode equal `S_IFREG`. -/
def S_ISREG (m : Nat) : Bool := m &&& 0o170000 = 0o100000

/-! ## Byte-level encoding helpers for `struct.pack('IIIIlll', ...)` -/

/-- Byte `k` (little-endian) of a natural number. -/
def byteOf (w k : Nat) : Nat := w / 256 ^ k % 256

/-- The four little-endian bytes of a `struct` `I` (unsigned 32-bit) field.
`struct.pack` raises on out-of-range values; all packed values come from
`os.stat_result` fields and are in range, so range errors are elided. -/
def u32le (v : Nat) : List Nat := [byteOf v 0, byteOf v 1, byteOf v 2, byteOf v 3]

/-- The eight little-endian bytes of a `struct` `l` (signed 64-bit) field,
in two's complement. -/
def i64le (v : Int) : List Nat :=
  let w : Nat := (v % (2 ^ 64 : Int)).toNat
  [byteOf w 0, byteOf w 1, byteOf w 2, byteOf w 3,
   byteOf w 4, byteOf w 5, byteOf w 6, byteOf w 7]

/-! ## `StatObject` -/

/-- The fields of an `os.stat_result` that `profs.py` reads.  `st_mtime`
and `st_ctime` are modelled after the `int(...)` truncation applied in
`StatObject.__init__`. -/
structure StatResult where
  st_mode : Nat
  st_dev : Nat
  st_gid : Nat
  st_uid : Nat
  st_mtime : Int
  st_ctime : Int
  st_size : Int
deriving DecidableEq, Repr

/-- `StatObject` (lines 47-100): one frozen metadata capture.  The
`_serialized` memo slot is pure caching and is elided. -/
structure StatObject where
  mode : Nat
  inode : Nat
  gid : Nat
  uid : Nat
  mtime : Int
  ctime : Int
  size : Int
deriving DecidableEq, Repr

/-- The all-zero record used as a `List.getD` default in statements. -/
def defaultStatObject : StatObject :=
  { mode := 0, inode := 0, gid := 0, uid := 0, mtime := 0, ctime := 0, size := 0 }

/-- `StatObject(stat_result=r, inode=i)`: fields copied from the stat
result (line 60-66), then the `inode` keyword slot assigned (line 68-70). -/
def StatObject.ofStat (r : StatResult) (inode : Nat) : StatObject :=
  { mode := r.st_mode, inode := inode, gid := r.st_gid, uid := r.st_uid,
    mtime := r.st_mtime, ctime := r.st_ctime, size := r.st_size }

/-- `StatObject.serialize` (lines 80-86): `struct.pack('IIIIlll', mode,
inode, gid, uid, mtime, ctime, size)`, 40 bytes total. -/
def StatObject.serialize (so : StatObject) : List Nat :=
  u32le so.mode ++ u32le so.inode ++ u32le so.gid ++ u32le so.uid ++
    i64le so.mtime ++ i64le so.ctime ++ i64le so.size

/-- `StatObject(data=data)` (line 57-58): the constructor executes
`self.unserialize(self, data)`, passing two positional arguments to the
one-argument method `unserialize` (line 88), so Python raises `TypeError`
before any field is assigned. -/
def StatObject.initFromData (_data : List Nat) : Except PyError StatObject :=
  .error .typeError

/-! ## `Paths` (the path canonicalizer, lines 7-45) -/

/-- The per-call state of a `Paths` object after `__init__` has run:
`base` already holds `os.path.realpath(base)` (line 16).  Note that the
backing `paths` set is a class attribute of `Paths` (line 8); within a
single instance, as modelled here, it behaves as an ordinary field. -/
structure PathsState where
  base : String
  relative_only : Bool
  paths : List String
deriving DecidableEq, Repr

/-- Python `set.add`: insert if absent. -/
def setAdd (l : List String) (s : String) : List String :=
  if s ∈ l then l else l ++ [s]

/-- `os.path.realpath`: raises `ValueError` on an embedded NUL byte;
otherwise resolves through the abstract filesystem's symlink structure,
modelled by the function `resolve`. -/
def realpathPy (resolve : String → String) (p : String) : Except PyError String :=
  if pyContainsChar p nulChar then .error .valueErrorNulByte else .ok (resolve p)

/-- `Paths.add`, lines 33-42: the code after `canonical_path` has been
computed.  With `relative_only`, a `startswith` test against `base`
either strips `len(base) + 1` characters or raises `ValueError`; an empty
result is replaced by the sentinel `"."`; the result is added to the set. -/
def addFinish (st : PathsState) (canonical0 : String) : Except PyError PathsState :=
  match (if st.relative_only then
           (if pyStartswith canonical0 st.base then
              Except.ok (pyDrop canonical0 (pyLen st.base + 1))
            else Except.error (PyError.valueErrorNotUnder canonical0 st.base))
         else Except.ok canonical0) with
  | .error e => .error e
  | .ok c1 =>
    let c2 := if c1 = "" then "." else c1
    .ok { st with paths := setAdd st.paths c2 }

/-- `Paths.add`, lines 25-42.  The `except ValueError` branch (lines
29-31) computes the NUL-truncated `non_zt_path` but then calls
`os.path.realpath(path)` on the ORIGINAL string again (line 31), so the
`ValueError` escapes; `_non_zt_path` mirrors the unused local. -/
def pathsAdd (resolve : String → String) (st : PathsState) (path0 : String) :
    Except PyError PathsState :=
  let path := pyStrip path0
  match realpathPy resolve path with
  | .ok canonical_path => addFinish st canonical_path
  | .error _ =>
    let _non_zt_path := takeUntilNul path
    match realpathPy resolve path with
    | .ok canonical_path => addFinish st canonical_path
    | .error e => .error e

/-! ## `FileSystem` state and `new_node` (lines 102-172)

`inode`, `names` and `stat_objects` are declared as class attributes of
`FileSystem` (lines 103-105).  The dict `names` and the list
`stat_objects` are only ever mutated in place (`self.names[name] = inode`,
`self.stat_objects.append(...)`), so they live in the class object and are
shared by every instance of the process; `self.inode` is rebound by
`self.inode += 1`, which creates a per-instance attribute whose first read
falls back to the class value `0`.  Within a single instance — the only
situation the walker claims quantify over — the aggregate behaves as this
state record, initialized to `freshState` at process start. -/

/-- The mutable aggregate observed by one `FileSystem` instance: the
identity counter, the name → identity dict (insertion-ordered), the
record list, and the log of warning prints. -/
structure WalkState where
  inode : Nat
  names : List (String × Nat)
  stat_objects : List StatObject
  warnings : List Warning
deriving DecidableEq, Repr

/-- The class-attribute values at process start (lines 103-105). -/
def freshState : WalkState :=
  { inode := 0, names := [], stat_objects := [], warnings := [] }

/-- Python `name in names` / `names[name]` on the insertion-ordered dict:
the value of the first (unique) binding of `name`. -/
def findName (name : String) : List (String × Nat) → Option Nat
  | [] => none
  | (n, i) :: rest => if n = name then some i else findName name rest

/-- Python `names[name] = v`: overwrite in place if the key exists
(keeping its position), else append a new binding. -/
def dictSet (l : List (String × Nat)) (k : String) (v : Nat) : List (String × Nat) :=
  if (findName k l).isSome then
    l.map (fun p => if p.1 = k then (k, v) else p)
  else l ++ [(k, v)]

/-- Append a warning print to the event log. -/
def addWarning (st : WalkState) (w : Warning) : WalkState :=
  { st with warnings := st.warnings ++ [w] }

/-- `FileSystem.new_node` (lines 158-172): a duplicate name raises
`ValueError` under `bailout` and returns `None` otherwise; a fresh name
receives the next identity, which is recorded in `names`.  The progress
print (lines 169-170) is elided. -/
def new_node (bailout : Bool) (st : WalkState) (name : String) :
    Except PyError (Option Nat × WalkState) :=
  if (findName name st.names).isSome then
    if bailout then .error (.valueErrorDuplicate name) else .ok (none, st)
  else
    let inode := st.inode
    .ok (some inode,
      { st with inode := st.inode + 1, names := st.names ++ [(name, inode)] })

/-! ## The tree walker (`_init_from_paths`, lines 183-229) -/

/-- The result of `os.stat(p, follow_symlinks=False)` in the abstract
filesystem: either a stat result or `FileNotFoundError` (the only
exception the walker handles). -/
inductive StatRes where
  | ok (r : StatResult)
  | notFound

/-- The result of `os.listdir(p)`: the children in listing order, or one
of the two exceptions the walker handles. -/
inductive ListRes where
  | ok (children : List String)
  | notFound
  | permissionDenied

/-- The abstract filesystem the walk runs against. -/
structure FSEnv where
  stat : String → StatRes
  listdir : String → ListRes

/-- The per-instance configuration set up by `FileSystem.__init__`
(lines 110-120) and `init_from_paths` (line 177): `base_len` is `1` for a
base of `"/"` and `len(base) + 1` otherwise; `dev` is the device id of
the base directory; `maxsize` models `self.maxsize` after the
`int(...)`-conversion of lines 184-187 (`none` when conversion raised
`TypeError`). -/
structure WalkCfg where
  base : String
  base_len : Nat
  dev : Nat
  follow : Bool
  bailout : Bool
  maxsize : Option Int

/-- `relative_path` for one visited entry (lines 191-193). -/
def relPathOf (cwd : Option String) (path : String) : String :=
  match cwd with
  | none => path
  | some c => joinPath c path

/-- `abs_path` for one visited entry (line 194).  The source joins
against the module-level `base` (line 265), which equals the `base`
passed to the `FileSystem` constructor in the program's only entry
point. -/
def walkerAbs (base : String) (cwd : Option String) (path : String) : String :=
  joinPath base (relPathOf cwd path)

/-- `canonical_path` for one visited entry (line 195):
`os.path.abspath`, i.e. pure normalization without symlink resolution. -/
def walkerCanonical (base : String) (cwd : Option String) (path : String) : String :=
  abspath (walkerAbs base cwd path)

/-- The size-filter test of line 207:
`maxsize is not None and stat.S_ISREG(mode) and size > maxsize`. -/
def sizeSkipB (maxsize : Option Int) (r : StatResult) : Bool :=
  match maxsize with
  | some m => S_ISREG r.st_mode && decide (r.st_size > m)
  | none => false

/-- Lines 207-215: the size filter, `new_node`, and the record append for
one visited entry that survived the device check. -/
def nodeStep (cfg : WalkCfg) (st : WalkState) (name canonical_path : String)
    (r : StatResult) : Except PyError WalkState :=
  if sizeSkipB cfg.maxsize r = true then
    .ok (addWarning st (.tooLarge canonical_path r.st_size))
  else
    match new_node cfg.bailout st name with
    | .error e => .error e
    | .ok (none, st1) => .ok (addWarning st1 (.duplicateName name canonical_path))
    | .ok (some inode, st1) =>
      .ok { st1 with stat_objects := st1.stat_objects ++ [StatObject.ofStat r inode] }

/-- What processing one entry of the loop body (lines 190-216) produces
before any directory descent: an escaping exception, a finished state, or
a state together with the paths needed for the descent of lines 217-226. -/
inductive VisitOutcome where
  | err (e : PyError)
  | done (st : WalkState)
  | descend (st : WalkState) (absPath relPath canonicalPath : String)
deriving Repr

/-- The state carried by a non-error outcome. -/
def VisitOutcome.stateOf : VisitOutcome → Option WalkState
  | .err _ => none
  | .done st => some st
  | .descend st _ _ _ => some st

/-- The loop body of `_init_from_paths` for one entry, up to the descent
decision: path computation and containment assert (lines 191-200), stat
with the `except FileNotFoundError` policy of lines 227-229, the device
boundary of lines 204-205, and `nodeStep`; the entry asks for a descent
when it is a directory and `follow` is set (lines 217-218). -/
def visitEntry (env : FSEnv) (cfg : WalkCfg) (cwd : Option String) (path : String)
    (st : WalkState) : VisitOutcome :=
  let abs_path := walkerAbs cfg.base cwd path
  let canonical_path := walkerCanonical cfg.base cwd path
  if pyStartswith canonical_path cfg.base = true then
    let name := pyDrop canonical_path cfg.base_len
    match env.stat canonical_path with
    | .notFound => if cfg.bailout = true then .err .fileNotFoundError else .done st
    | .ok r =>
      if r.st_dev ≠ cfg.dev then .done (addWarning st (.crossDevice canonical_path))
      else
        match nodeStep cfg st name canonical_path r with
        | .error e => .err e
        | .ok st2 =>
          if (S_ISDIR r.st_mode && cfg.follow) = true then
            .descend st2 abs_path (relPathOf cwd path) canonical_path
          else .done st2
  else .err .assertionError

/-- The effect of the inner `except FileNotFoundError / PermissionError`
handlers of lines 222-226 on an exception escaping the nested
`_init_from_paths` call: a `FileNotFoundError` raised inside the descent
(a vanished entry under `bailout`) is caught at line 222 and becomes the
`assert False` of line 224; every other exception propagates. -/
def descendResult (x : Except PyError WalkState) : Except PyError WalkState :=
  match x with
  | .error .fileNotFoundError => .error .assertionError
  | .error e => .error e
  | .ok st2 => .ok st2

/-- `FileSystem._init_from_paths` (lines 183-229), given recursion fuel.
Each recursive use (the descent into a directory's children and the
continuation of the loop over the remaining entries) consumes one unit of
fuel, so any finite walk of the program is reproduced under sufficient
fuel.  A vanished directory during `os.listdir` is fatal (lines 222-224);
`PermissionError` on listing produces a warning and the loop continues
(lines 225-226). -/
def walkPaths (env : FSEnv) (cfg : WalkCfg) :
    Nat → Option String → List String → WalkState → Except PyError WalkState
  | _, _, [], st => .ok st
  | 0, _, _ :: _, _ => .error .fuelOut
  | fuel + 1, cwd, path :: rest, st =>
    let head : Except PyError WalkState :=
      match visitEntry env cfg cwd path st with
      | .err e => .error e
      | .done st1 => .ok st1
      | .descend st1 absPath relPath canon =>
        match env.listdir absPath with
        | .notFound => .error .assertionError
        | .permissionDenied => .ok (addWarning st1 (.permissionDenied canon))
        | .ok children =>
          descendResult (walkPaths env cfg fuel (some relPath) children st1)
    match head with
    | .error e => .error e
    | .ok st3 => walkPaths env cfg fuel cwd rest st3

/-- The `WalkCfg` assembled by `FileSystem.__init__` (lines 110-120):
`base_len` per lines 112-115. -/
def mkWalkCfg (base : String) (follow bailout : Bool) (maxsize : Option Int)
    (dev : Nat) : WalkCfg :=
  { base := base, base_len := if base = "/" then 1 else pyLen base + 1,
    dev := dev, follow := follow, bailout := bailout, maxsize := maxsize }

/-- `FileSystem.init_from_paths` (lines 174-181): stat the base to learn
the boundary device id, then walk the roots from the fresh process state.
The progress print of lines 180-181 is elided. -/
def init_from_paths (env : FSEnv) (base : String) (follow bailout : Bool)
    (maxsize : Option Int) (paths : List String) (fuel : Nat) :
    Except PyError WalkState :=
  match env.stat (abspath base) with
  | .notFound => .error .fileNotFoundError
  | .ok r =>
    walkPaths env (mkWalkCfg base follow bailout maxsize r.st_dev) fuel none paths
      freshState

/-! ## The snapshot codec (`export_fs` / `import_fs`, lines 128-156)

The snapshot file is text lines followed by the concatenated record
bytes.  The file is modelled as that pair directly: `lines` are the
newline-terminated text lines in order (without their terminators), and
`blob` is the trailing byte block (`import_fs` reads it with a single
`f.read()` after the line reads). -/

/-- The contents of a written snapshot file. -/
structure ExportFile where
  lines : List String
  blob : List Nat
deriving DecidableEq, Repr

/-- `FileSystem.export_fs` (lines 143-156): the count line, then a
name line and an identity line per `names` entry in dict (= insertion)
order, then the concatenated `serialize()` bytes in `stat_objects`
order.  The per-iteration `assert chr(10) not in self.names` of line
147 tests whether the one-character newline STRING is a key of the dict
(not whether the name contains a newline), so it can only fail when the
loop runs and that key exists.  Opening with mode `x` (fail if the file
exists) and the debugging print of line 152 are elided. -/
def export_fs (st : WalkState) : Except PyError ExportFile :=
  if st.names ≠ [] ∧ (findName "\n" st.names).isSome then .error .assertionError
  else
    .ok { lines := toString st.inode :: st.names.flatMap (fun p => [p.1, toString p.2]),
          blob := (st.stat_objects.map StatObject.serialize).flatten }

/-- `f.readline()` on the modelled line list: at end of file Python
returns the empty string. -/
def readLine : List String → String × List String
  | [] => ("", [])
  | l :: rest => (l, rest)

/-- `self.stat_objects[i] = so`: Python list index assignment raises
`IndexError` when `i` is not an index of the list (the list is never
pre-sized to the record count). -/
def listSetItem (l : List StatObject) (i : Nat) (so : StatObject) :
    Except PyError (List StatObject) :=
  if i < l.length then .ok (l.set i so) else .error .indexError

/-- The record loop of `import_fs` (lines 139-141): for `i` in
`range(count)`, slice 40 bytes, build `StatObject(data=...)` (which
raises `TypeError`, see `StatObject.initFromData`), and index-assign into
`stat_objects`.  The right-hand side is evaluated before the index
assignment, as in Python. -/
def importRecords (sos : List Nat) : Nat → Nat → List StatObject →
    Except PyError (List StatObject)
  | _, 0, objs => .ok objs
  | i, k + 1, objs =>
    let data := (sos.drop (40 * i)).take 40
    match StatObject.initFromData data with
    | .error e => .error e
    | .ok so =>
      match listSetItem objs i so with
      | .error e => .error e
      | .ok objs2 => importRecords sos (i + 1) k objs2

/-- The name loop of `import_fs` (lines 133-136): `count` pairs of a
stripped name line and an `int(...)`-parsed identity line, written into
the dict. -/
def importNames : Nat → List String → List (String × Nat) →
    Except PyError (List (String × Nat) × List String)
  | 0, lines, names => .ok (names, lines)
  | k + 1, lines, names =>
    let (nameLine, rest1) := readLine lines
    let (inodeLine, rest2) := readLine rest1
    match parseNatPy inodeLine with
    | .error e => .error e
    | .ok v => importNames k rest2 (dictSet names (pyStrip nameLine) v)

/-- `FileSystem.import_fs` (lines 128-141), run in a fresh process (class
attributes `names = {}` and `stat_objects = []`): parse the count line,
read the name/identity pairs, then run the record loop against the
still-empty `stat_objects` list. -/
def import_fs (file : ExportFile) : Except PyError WalkState :=
  let (countLine, rest) := readLine file.lines
  match parseNatPy countLine with
  | .error e => .error e
  | .ok count =>
    match importNames count rest [] with
    | .error e => .error e
    | .ok (names, _) =>
      match importRecords file.blob 0 count [] with
      | .error e => .error e
      | .ok objs =>
        .ok { inode := count, names := names, stat_objects := objs, warnings := [] }

/-! ## Definitions modelled from the spec's words (for refinement claims)

These two definitions follow the specification text, not the source; each
is compared against the corresponding source-derived definition. -/

/-- Modelled from the spec: a canonical path lies under the base
directory iff it is the base itself or extends it at a path-component
boundary (glossary: the base is "the root under which all relative names
are computed"). -/
def liesUnder (base p : String) : Prop :=
  p = base ∨ pyStartswith p (base ++ "/") = true

/-- Modelled from the spec: the relative name of a visited entry is "the
canonical (symlink-resolved, absolute) form" of its path "with the base
directory prefix and separator stripped", where `resolve` is the
filesystem's symlink resolution (the spec's canonicalization applied to
the entry's absolute path). -/
def specRelativeName (resolve : String → String) (base : String) (base_len : Nat)
    (cwd : Option String) (path : String) : String :=
  pyDrop (resolve (walkerAbs base cwd path)) base_len

instance liesUnderDecidable (base p : String) : Decidable (liesUnder base p) :=
  inferInstanceAs (Decidable (_ ∨ _))

/-! ## Helper lemmas about `findName` -/

theorem findName_eq_none_iff (name : String) :
    ∀ l : List (String × Nat), findName name l = none ↔ name ∉ l.map Prod.fst := by
  intro l
  induction l with
  | nil => simp [findName]
  | cons p rest ih =>
    obtain ⟨n, v⟩ := p
    by_cases hn : n = name
    · subst hn
      simp [findName, ih]
    · simp [findName, hn, ih, Ne.symm hn]

theorem findName_mem {name : String} {v : Nat} :
    ∀ {l : List (String × Nat)}, findName name l = some v → (name, v) ∈ l := by
  intro l
  induction l with
  | nil => simp [findName]
  | cons p rest ih =>
    obtain ⟨n, w⟩ := p
    by_cases hn : n = name
    · subst hn
      simp only [findName, if_pos rfl]
      rintro h
      obtain rfl : w = v := by injection h
      exact List.mem_cons_self _ _
    · simp only [findName, if_neg hn]
      intro h
      exact List.mem_cons_of_mem _ (ih h)

theorem findName_append_left {name : String} {v : Nat} {l : List (String × Nat)}
    (t : List (String × Nat)) (h : findName name l = some v) :
    findName name (l ++ t) = some v := by
  induction l with
  | nil => simp [findName] at h
  | cons p rest ih =>
    obtain ⟨n, w⟩ := p
    by_cases hn : n = name
    · subst hn
      simp only [findName, if_pos rfl] at h ⊢
      exact h
    · simp only [findName, if_neg hn] at h ⊢
      exact ih h

theorem filter_key_eq_of_findName {name : String} {v : Nat} :
    ∀ {l : List (String × Nat)}, (l.map Prod.fst).Nodup → findName name l = some v →
      l.filter (fun p => p.1 == name) = [(name, v)] := by
  intro l
  induction l with
  | nil => simp [findName]
  | cons p rest ih =>
    obtain ⟨n, w⟩ := p
    intro hnd hf
    have hnd2 : (rest.map Prod.fst).Nodup := (List.nodup_cons.mp (by simpa using hnd)).2
    have hnmem : n ∉ rest.map Prod.fst := (List.nodup_cons.mp (by simpa using hnd)).1
    by_cases hn : n = name
    · subst hn
      simp only [findName, if_pos rfl] at hf
      obtain rfl : w = v := by injection hf
      have hrest : rest.filter (fun p => p.1 == n) = [] := by
        rw [List.filter_eq_nil_iff]
        intro p hp hbeq
        exact hnmem (by
          have : p.1 = n := by simpa using hbeq
          simpa [this.symm] using List.mem_map_of_mem Prod.fst hp)
      simp [List.filter_cons, hrest]
    · simp only [findName, if_neg hn] at hf
      have : ((n, w).1 == name) = false := by simpa using hn
      simp [List.filter_cons, this, ih hnd2 hf]

/-! ## The walker invariant (claim C2) and the append-only evolution lemma -/

/-- The structural invariant of a populated snapshot: the identities
recorded in `names` (in insertion order) are exactly `0, 1, ...,
inode - 1`; each assignment appended exactly one record, so
`stat_objects` has `inode` entries and the record at index `i` carries
identity `i`; no name is recorded twice. -/
def goodState (st : WalkState) : Prop :=
  st.names.map Prod.snd = List.range st.inode
  ∧ st.stat_objects.length = st.inode
  ∧ (∀ i < st.stat_objects.length, (st.stat_objects.getD i defaultStatObject).inode = i)
  ∧ (st.names.map Prod.fst).Nodup

instance goodStateDecidable (st : WalkState) : Decidable (goodState st) :=
  inferInstanceAs (Decidable (_ ∧ _ ∧ _ ∧ _))

theorem goodState_fresh : goodState freshState := by
  refine ⟨rfl, rfl, ?_, List.nodup_nil⟩
  intro i hi
  simp [freshState] at hi

/-- The state of the aggregate only ever grows during a walk: a later
state appends to `names` and `stat_objects`, never rewrites them, and
preserves the structural invariant. -/
def Extends (st st2 : WalkState) : Prop :=
  (∃ t, st2.names = st.names ++ t)
  ∧ (∃ t, st2.stat_objects = st.stat_objects ++ t)
  ∧ st.inode ≤ st2.inode
  ∧ (goodState st → goodState st2)

theorem Extends.rfl (st : WalkState) : Extends st st :=
  ⟨⟨[], (List.append_nil _).symm⟩, ⟨[], (List.append_nil _).symm⟩, Nat.le_refl _, id⟩

theorem Extends.trans {a b c : WalkState} (h1 : Extends a b) (h2 : Extends b c) :
    Extends a c := by
  obtain ⟨⟨t1, ht1⟩, ⟨u1, hu1⟩, hi1, hg1⟩ := h1
  obtain ⟨⟨t2, ht2⟩, ⟨u2, hu2⟩, hi2, hg2⟩ := h2
  exact ⟨⟨t1 ++ t2, by rw [ht2, ht1, List.append_assoc]⟩,
    ⟨u1 ++ u2, by rw [hu2, hu1, List.append_assoc]⟩,
    Nat.le_trans hi1 hi2, fun h => hg2 (hg1 h)⟩

theorem extends_addWarning (st : WalkState) (w : Warning) :
    Extends st (addWarning st w) :=
  ⟨⟨[], (List.append_nil _).symm⟩, ⟨[], (List.append_nil _).symm⟩, Nat.le_refl _,
    fun h => h⟩

/-- The state after one fresh-name step: `new_node` assigned `st.inode`
to `name` (lines 165-167) and the walker appended the matching record
(lines 214-215). -/
def snocState (st : WalkState) (name : String) (r : StatResult) : WalkState :=
  { st with
      inode := st.inode + 1
      names := st.names ++ [(name, st.inode)]
      stat_objects := st.stat_objects ++ [StatObject.ofStat r st.inode] }

/-- One fresh-name step preserves the structural invariant. -/
theorem goodState_snoc (st : WalkState) (name : String) (r : StatResult)
    (hfresh : findName name st.names = none) (hg : goodState st) :
    goodState (snocState st name r) := by
  obtain ⟨h1, h2, h3, h4⟩ := hg
  refine ⟨?_, ?_, ?_, ?_⟩
  · simp only [snocState, List.map_append, h1, List.map_cons, List.map_nil]
    rw [List.range_succ]
  · simp [snocState, h2]
  · intro i hi
    simp only [snocState, List.length_append, List.length_cons, List.length_nil] at hi
    rcases Nat.lt_or_ge i st.stat_objects.length with hlt | hge
    · simp only [snocState]
      rw [List.getD_append _ _ _ _ hlt]
      exact h3 i hlt
    · have hieq : i = st.stat_objects.length := by omega
      subst hieq
      simp only [snocState]
      rw [List.getD_append_right _ _ _ _ (Nat.le_refl _)]
      simp [StatObject.ofStat, h2]
  · simp only [snocState, List.map_append, List.map_cons, List.map_nil]
    rw [List.nodup_append]
    refine ⟨h4, List.nodup_singleton _, ?_⟩
    intro x hx hy
    rw [List.mem_singleton] at hy
    exact absurd (hy ▸ hx) ((findName_eq_none_iff name st.names).mp hfresh)

theorem extends_snoc (st : WalkState) (name : String) (r : StatResult)
    (hfresh : findName name st.names = none) : Extends st (snocState st name r) :=
  ⟨⟨[(name, st.inode)], rfl⟩, ⟨[StatObject.ofStat r st.inode], rfl⟩,
    Nat.le_succ _, goodState_snoc st name r hfresh⟩

/-! ## Evaluation lemmas for `nodeStep`, `visitEntry` and `walkPaths` -/

theorem nodeStep_sizeSkip (cfg : WalkCfg) (st : WalkState) (name canon : String)
    (r : StatResult) (hs : sizeSkipB cfg.maxsize r = true) :
    nodeStep cfg st name canon r = .ok (addWarning st (.tooLarge canon r.st_size)) := by
  simp [nodeStep, hs]

theorem nodeStep_duplicate (cfg : WalkCfg) (st : WalkState) (name canon : String)
    (r : StatResult) (i : Nat) (hs : sizeSkipB cfg.maxsize r = false)
    (hf : findName name st.names = some i) :
    nodeStep cfg st name canon r =
      if cfg.bailout = true then .error (.valueErrorDuplicate name)
      else .ok (addWarning st (.duplicateName name canon)) := by
  cases hb : cfg.bailout <;> simp [nodeStep, new_node, hs, hf, hb]

theorem nodeStep_fresh (cfg : WalkCfg) (st : WalkState) (name canon : String)
    (r : StatResult) (hs : sizeSkipB cfg.maxsize r = false)
    (hf : findName name st.names = none) :
    nodeStep cfg st name canon r = .ok (snocState st name r) := by
  simp [nodeStep, new_node, hs, hf, snocState]

/-- A successful `nodeStep` only appends. -/
theorem nodeStep_extends (cfg : WalkCfg) (st : WalkState) (name canon : String)
    (r : StatResult) (st2 : WalkState)
    (h : nodeStep cfg st name canon r = .ok st2) : Extends st st2 := by
  by_cases hs : sizeSkipB cfg.maxsize r = true
  · rw [nodeStep_sizeSkip cfg st name canon r hs] at h
    obtain rfl : addWarning st (.tooLarge canon r.st_size) = st2 := by injection h
    exact extends_addWarning _ _
  · rw [Bool.not_eq_true] at hs
    cases hf : findName name st.names with
    | some i =>
      rw [nodeStep_duplicate cfg st name canon r i hs hf] at h
      by_cases hb : cfg.bailout = true
      · rw [if_pos hb] at h
        exact absurd h (by simp)
      · rw [if_neg hb] at h
        obtain rfl : addWarning st (.duplicateName name canon) = st2 := by injection h
        exact extends_addWarning _ _
    | none =>
      rw [nodeStep_fresh cfg st name canon r hs hf] at h
      obtain rfl : snocState st name r = st2 := by injection h
      exact extends_snoc st name r hf

theorem visitEntry_noPrefix (env : FSEnv) (cfg : WalkCfg) (cwd : Option String)
    (path : String) (st : WalkState)
    (hpre : pyStartswith (walkerCanonical cfg.base cwd path) cfg.base = false) :
    visitEntry env cfg cwd path st = .err .assertionError := by
  simp [visitEntry, hpre]

theorem visitEntry_statNotFound (env : FSEnv) (cfg : WalkCfg) (cwd : Option String)
    (path : String) (st : WalkState)
    (hpre : pyStartswith (walkerCanonical cfg.base cwd path) cfg.base = true)
    (hstat : env.stat (walkerCanonical cfg.base cwd path) = .notFound) :
    visitEntry env cfg cwd path st =
      if cfg.bailout = true then .err .fileNotFoundError else .done st := by
  simp [visitEntry, hpre, hstat]

theorem visitEntry_crossDevice (env : FSEnv) (cfg : WalkCfg) (cwd : Option String)
    (path : String) (st : WalkState) (r : StatResult)
    (hpre : pyStartswith (walkerCanonical cfg.base cwd path) cfg.base = true)
    (hstat : env.stat (walkerCanonical cfg.base cwd path) = .ok r)
    (hdev : r.st_dev ≠ cfg.dev) :
    visitEntry env cfg cwd path st =
      .done (addWarning st (.crossDevice (walkerCanonical cfg.base cwd path))) := by
  simp [visitEntry, hpre, hstat, hdev]

theorem visitEntry_sameDevice (env : FSEnv) (cfg : WalkCfg) (cwd : Option String)
    (path : String) (st : WalkState) (r : StatResult)
    (hpre : pyStartswith (walkerCanonical cfg.base cwd path) cfg.base = true)
    (hstat : env.stat (walkerCanonical cfg.base cwd path) = .ok r)
    (hdev : r.st_dev = cfg.dev) :
    visitEntry env cfg cwd path st =
      match nodeStep cfg st (pyDrop (walkerCanonical cfg.base cwd path) cfg.base_len)
          (walkerCanonical cfg.base cwd path) r with
      | .error e => .err e
      | .ok st2 =>
        if (S_ISDIR r.st_mode && cfg.follow) = true then
          .descend st2 (walkerAbs cfg.base cwd path) (relPathOf cwd path)
            (walkerCanonical cfg.base cwd path)
        else .done st2 := by
  simp [visitEntry, hpre, hstat, hdev]

/-- A non-error outcome of one loop-body visit only appends to the
state. -/
theorem visitEntry_extends (env : FSEnv) (cfg : WalkCfg) (cwd : Option String)
    (path : String) (st st1 : WalkState)
    (h : (visitEntry env cfg cwd path st).stateOf = some st1) : Extends st st1 := by
  by_cases hpre : pyStartswith (walkerCanonical cfg.base cwd path) cfg.base = true
  · cases hstat : env.stat (walkerCanonical cfg.base cwd path) with
    | notFound =>
      rw [visitEntry_statNotFound env cfg cwd path st hpre hstat] at h
      by_cases hb : cfg.bailout = true
      · rw [if_pos hb] at h
        simp [VisitOutcome.stateOf] at h
      · rw [if_neg hb] at h
        obtain rfl : st = st1 := by simpa [VisitOutcome.stateOf] using h
        exact Extends.rfl _
    | ok r =>
      by_cases hdev : r.st_dev = cfg.dev
      · rw [visitEntry_sameDevice env cfg cwd path st r hpre hstat hdev] at h
        cases hns : nodeStep cfg st (pyDrop (walkerCanonical cfg.base cwd path) cfg.base_len)
            (walkerCanonical cfg.base cwd path) r with
        | error e => rw [hns] at h; simp [VisitOutcome.stateOf] at h
        | ok st2 =>
          rw [hns] at h
          have hext := nodeStep_extends cfg st _ _ r st2 hns
          by_cases hdir : (S_ISDIR r.st_mode && cfg.follow) = true
          · obtain rfl : st2 = st1 := by simpa [VisitOutcome.stateOf, hdir] using h
            exact hext
          · obtain rfl : st2 = st1 := by simpa [VisitOutcome.stateOf, hdir] using h
            exact hext
      · rw [visitEntry_crossDevice env cfg cwd path st r hpre hstat hdev] at h
        obtain rfl :
            addWarning st (.crossDevice (walkerCanonical cfg.base cwd path)) = st1 := by
          simpa [VisitOutcome.stateOf] using h
        exact extends_addWarning _ _
  · rw [Bool.not_eq_true] at hpre
    rw [visitEntry_noPrefix env cfg cwd path st hpre] at h
    simp [VisitOutcome.stateOf] at h

/-- The head computation of one loop iteration of `walkPaths` at
sufficient fuel: process the entry and, if asked, descend. -/
def walkHead (env : FSEnv) (cfg : WalkCfg) (fuel : Nat) (cwd : Option String)
    (path : String) (st : WalkState) : Except PyError WalkState :=
  match visitEntry env cfg cwd path st with
  | .err e => .error e
  | .done st1 => .ok st1
  | .descend st1 absPath relPath canon =>
    match env.listdir absPath with
    | .notFound => .error .assertionError
    | .permissionDenied => .ok (addWarning st1 (.permissionDenied canon))
    | .ok children =>
      descendResult (walkPaths env cfg fuel (some relPath) children st1)

theorem descendResult_ok (x : Except PyError WalkState) (st2 : WalkState) :
    descendResult x = .ok st2 ↔ x = .ok st2 := by
  cases x with
  | ok a => simp [descendResult]
  | error e => cases e <;> simp [descendResult]

theorem walkPaths_nil (env : FSEnv) (cfg : WalkCfg) (fuel : Nat)
    (cwd : Option String) (st : WalkState) :
    walkPaths env cfg fuel cwd [] st = .ok st := by
  cases fuel <;> rfl

theorem walkPaths_cons (env : FSEnv) (cfg : WalkCfg) (fuel : Nat)
    (cwd : Option String) (path : String) (rest : List String) (st : WalkState) :
    walkPaths env cfg (fuel + 1) cwd (path :: rest) st =
      match walkHead env cfg fuel cwd path st with
      | .error e => .error e
      | .ok st3 => walkPaths env cfg fuel cwd rest st3 := rfl

theorem walkHead_err (env : FSEnv) (cfg : WalkCfg) (fuel : Nat) (cwd : Option String)
    (path : String) (st : WalkState) (e : PyError)
    (hv : visitEntry env cfg cwd path st = .err e) :
    walkHead env cfg fuel cwd path st = .error e := by
  simp [walkHead, hv]

theorem walkHead_done (env : FSEnv) (cfg : WalkCfg) (fuel : Nat) (cwd : Option String)
    (path : String) (st st1 : WalkState)
    (hv : visitEntry env cfg cwd path st = .done st1) :
    walkHead env cfg fuel cwd path st = .ok st1 := by
  simp [walkHead, hv]

theorem walkHead_descend (env : FSEnv) (cfg : WalkCfg) (fuel : Nat)
    (cwd : Option String) (path : String) (st st1 : WalkState)
    (absPath relPath canon : String)
    (hv : visitEntry env cfg cwd path st = .descend st1 absPath relPath canon) :
    walkHead env cfg fuel cwd path st =
      match env.listdir absPath with
      | .notFound => .error .assertionError
      | .permissionDenied => .ok (addWarning st1 (.permissionDenied canon))
      | .ok children =>
        descendResult (walkPaths env cfg fuel (some relPath) children st1) := by
  simp [walkHead, hv]

theorem walkPaths_cons_err (env : FSEnv) (cfg : WalkCfg) (fuel : Nat)
    (cwd : Option String) (path : String) (rest : List String) (st : WalkState)
    (e : PyError) (hh : walkHead env cfg fuel cwd path st = .error e) :
    walkPaths env cfg (fuel + 1) cwd (path :: rest) st = .error e := by
  rw [walkPaths_cons, hh]

theorem walkPaths_cons_ok (env : FSEnv) (cfg : WalkCfg) (fuel : Nat)
    (cwd : Option String) (path : String) (rest : List String) (st st3 : WalkState)
    (hh : walkHead env cfg fuel cwd path st = .ok st3) :
    walkPaths env cfg (fuel + 1) cwd (path :: rest) st =
      walkPaths env cfg fuel cwd rest st3 := by
  rw [walkPaths_cons, hh]

/-- A completed walk only appends to the state it started from, and
preserves the structural invariant. -/
theorem walkPaths_extends (env : FSEnv) (cfg : WalkCfg) :
    ∀ (fuel : Nat) (cwd : Option String) (paths : List String) (st st2 : WalkState),
      walkPaths env cfg fuel cwd paths st = .ok st2 → Extends st st2 := by
  intro fuel
  induction fuel with
  | zero =>
    intro cwd paths st st2 h
    cases paths with
    | nil =>
      rw [walkPaths_nil] at h
      obtain rfl : st = st2 := by injection h
      exact Extends.rfl _
    | cons path rest => exact absurd h (by simp [walkPaths])
  | succ fuel ih =>
    intro cwd paths st st2 h
    cases paths with
    | nil =>
      rw [walkPaths_nil] at h
      obtain rfl : st = st2 := by injection h
      exact Extends.rfl _
    | cons path rest =>
      cases hh : walkHead env cfg fuel cwd path st with
      | error e =>
        rw [walkPaths_cons_err env cfg fuel cwd path rest st e hh] at h
        exact absurd h (by simp)
      | ok st3 =>
        rw [walkPaths_cons_ok env cfg fuel cwd path rest st st3 hh] at h
        have hx : Extends st st3 := by
          cases hv : visitEntry env cfg cwd path st with
          | err e => rw [walkHead_err env cfg fuel cwd path st e hv] at hh; simp at hh
          | done st1 =>
            rw [walkHead_done env cfg fuel cwd path st st1 hv] at hh
            obtain rfl : st1 = st3 := by injection hh
            exact visitEntry_extends env cfg cwd path st st1 (by rw [hv]; rfl)
          | descend st1 absPath relPath canon =>
            have hx1 := visitEntry_extends env cfg cwd path st st1 (by rw [hv]; rfl)
            rw [walkHead_descend env cfg fuel cwd path st st1 absPath relPath canon hv]
              at hh
            cases hl : env.listdir absPath with
            | notFound => rw [hl] at hh; simp at hh
            | permissionDenied =>
              rw [hl] at hh
              obtain rfl : addWarning st1 (.permissionDenied canon) = st3 := by
                injection hh
              exact hx1.trans (extends_addWarning st1 _)
            | ok children =>
              rw [hl] at hh
              replace hh : walkPaths env cfg fuel (some relPath) children st1
                  = .ok st3 := (descendResult_ok _ _).mp hh
              exact hx1.trans (ih (some relPath) children st1 st3 hh)
        exact hx.trans (ih cwd rest st3 st2 h)


/-! ## Claim theorems -/

/-- A one-entry snapshot: name `"a"` with identity `0` and its record. -/
def rC1 : StatResult :=
  { st_mode := 0o100644, st_dev := 7, st_gid := 0, st_uid := 0,
    st_mtime := 11, st_ctime := 21, st_size := 3 }

def soC1 : StatObject := StatObject.ofStat rC1 0

def stC1 : WalkState :=
  { inode := 1, names := [("a", 0)], stat_objects := [soC1], warnings := [] }

/-- Claim C1: serializing a snapshot and deserializing the produced file
is claimed to reproduce the NodeTable and the record sequence.  The code
violates this: exporting the one-entry snapshot `stC1` succeeds, but
importing the produced file raises `TypeError` (the record loop of lines
139-141 builds `StatObject(data=...)`, whose constructor calls
`self.unserialize(self, data)` with an extra positional argument; even
without that, `stat_objects[i] = ...` on the never-pre-sized empty list
would raise `IndexError`), so the round trip cannot complete for any
nonempty snapshot. -/
theorem c1_roundtrip_crashes :
    export_fs stC1 = .ok { lines := ["1", "a", "0"], blob := soC1.serialize }
    ∧ (export_fs stC1).bind import_fs = .error .typeError :=
  ⟨rfl, rfl⟩

/-- Claim C2: a snapshot built by the walker with `count` recorded names
assigns exactly the identities `{0, ..., count - 1}` in discovery order,
the record at index `i` carries identity `i` (and exists: one record was
appended in the same step as each assignment), and no two names share an
identity (`goodState` packages exactly these facts; the second conjunct
restates the identity set as `{0, ..., count - 1}` with
`count = st2.names.length`). -/
theorem c2_identity_density (env : FSEnv) (base : String) (follow bailout : Bool)
    (maxsize : Option Int) (paths : List String) (fuel : Nat) (st2 : WalkState)
    (h : init_from_paths env base follow bailout maxsize paths fuel = .ok st2) :
    goodState st2 ∧ st2.names.map Prod.snd = List.range st2.names.length := by
  unfold init_from_paths at h
  cases hstat : env.stat (abspath base) with
  | notFound => rw [hstat] at h; exact absurd h (by simp)
  | ok r =>
    rw [hstat] at h
    have hx := walkPaths_extends env (mkWalkCfg base follow bailout maxsize r.st_dev)
      fuel none paths freshState st2 h
    have hg := hx.2.2.2 goodState_fresh
    refine ⟨hg, ?_⟩
    have h1 := hg.1
    have hlen : st2.names.length = st2.inode := by
      have h2 := congrArg List.length h1
      simpa using h2
    rw [h1, hlen]

/-- A tiny concrete walk for the C2 witness: base `/b` on device `7`
containing the regular file `f`. -/
def rDirC2 : StatResult :=
  { st_mode := 0o040755, st_dev := 7, st_gid := 0, st_uid := 0,
    st_mtime := 1, st_ctime := 2, st_size := 4096 }

def rFileC2 : StatResult :=
  { st_mode := 0o100644, st_dev := 7, st_gid := 0, st_uid := 0,
    st_mtime := 11, st_ctime := 21, st_size := 3 }

def envC2 : FSEnv :=
  { stat := fun s =>
      if s = "/b" then .ok rDirC2
      else if s = "/b/f" then .ok rFileC2
      else .notFound,
    listdir := fun _ => .notFound }

def stC2 : WalkState :=
  { inode := 1, names := [("f", 0)],
    stat_objects := [StatObject.ofStat rFileC2 0], warnings := [] }

theorem c2_identity_density_witness :
    goodState stC2 ∧ stC2.names.map Prod.snd = List.range stC2.names.length :=
  c2_identity_density envC2 "/b" false false none ["f"] 1 stC2 rfl

/-- The class-attribute state after a first `FileSystem` instance has
recorded the name `"a"`. -/
def stC3 : WalkState :=
  { inode := 1, names := [("a", 0)], stat_objects := [], warnings := [] }

/-- Claim C3: the NodeTable, record collection and identity counter are
claimed to be owned exclusively by one snapshot instance.  The code
violates this: `names` and `stat_objects` are class attributes of
`FileSystem` (lines 103-105) that are only ever mutated in place, so a
second instance constructed in the same process starts with the first
instance's dict and list, while `self.inode += 1` rebinds a per-instance
attribute whose first read falls back to the class value `0`.  Modelling
the second instance as the shared state with the counter reset to `0`:
its `new_node("a")` observes the first instance's entry (returning
`None` as a duplicate), and its `new_node("b")` hands out identity `0` a
second time, although `("a", 0)` is already in the shared dict — whereas
a first (isolated) instance is assigned `(some 0)` for its first name. -/
theorem c3_class_state_shared :
    new_node false freshState "a" = .ok (some 0, stC3)
    ∧ new_node false { stC3 with inode := 0 } "a" = .ok (none, { stC3 with inode := 0 })
    ∧ new_node false { stC3 with inode := 0 } "b"
        = .ok (some 0, { stC3 with inode := 1, names := [("a", 0), ("b", 0)] }) :=
  ⟨rfl, rfl, rfl⟩

/-- A filesystem for C4 in which the walker's name computation and the
spec's symlink-resolved canonicalization disagree: under base `/b`
(device `7`), `link` is a symlink to the sibling directory `real`, so the
symlink-resolved form of `/b/link/c` is `/b/real/c`; `os.stat` follows
the intermediate symlink, so stating `/b/link/c` succeeds and yields the
metadata of the regular file `/b/real/c`. -/
def resolveC4 : String → String :=
  fun p => if p = "/b/link/c" then "/b/real/c" else p

def envC4 : FSEnv :=
  { stat := fun s =>
      if s = "/b/link/c" then
        .ok { st_mode := 0o100644, st_dev := 7, st_gid := 0, st_uid := 0,
              st_mtime := 11, st_ctime := 21, st_size := 3 }
      else .notFound,
    listdir := fun _ => .notFound }

/-- Claim C4, counterexample: the walker is claimed to record each name
from the canonical (symlink-resolved) form of the entry's path.  Walking
`link/c` under base `/b` in `envC4` records the name `"link/c"` (the
walker canonicalizes with `os.path.abspath`, which never resolves
symlinks), while the symlink-resolved canonical form stripped of the base
prefix is `"real/c"`. -/
theorem c4_counterexample :
    (walkPaths envC4 (mkWalkCfg "/b" false false none 7) 1 none ["link/c"]
        freshState).map WalkState.names = .ok [("link/c", 0)]
    ∧ specRelativeName resolveC4 "/b" (mkWalkCfg "/b" false false none 7).base_len
        none "link/c" = "real/c"
    ∧ ("link/c" : String) ≠ ("real/c" : String) :=
  ⟨rfl, rfl, by decide⟩

/-- Claim C4 as amended: for every visited entry the walker computes the
absolute normalized form of `base` joined with the entry's relative path
via `os.path.abspath` — purely lexical normalization, with no symlink
resolution — and (a) fails fatally (the assert of line 200) when that
form does not start with the base string; (b) otherwise records the name
as that form with the first `base_len` characters stripped: under a
successful stat on the same device, with the size filter not triggered
and the name not yet recorded, the visit appends exactly the binding
`(name, st.inode)` to the NodeTable. -/
theorem c4_abspath_resolution (env : FSEnv) (cfg : WalkCfg) (cwd : Option String)
    (path : String) (st : WalkState) (r : StatResult) :
    (pyStartswith (walkerCanonical cfg.base cwd path) cfg.base = false →
      visitEntry env cfg cwd path st = .err .assertionError)
    ∧ (pyStartswith (walkerCanonical cfg.base cwd path) cfg.base = true →
       env.stat (walkerCanonical cfg.base cwd path) = .ok r →
       r.st_dev = cfg.dev →
       sizeSkipB cfg.maxsize r = false →
       findName (pyDrop (walkerCanonical cfg.base cwd path) cfg.base_len) st.names
         = none →
       (visitEntry env cfg cwd path st).stateOf.map WalkState.names
         = some (st.names ++
             [(pyDrop (walkerCanonical cfg.base cwd path) cfg.base_len, st.inode)])) := by
  constructor
  · intro hpre
    exact visitEntry_noPrefix env cfg cwd path st hpre
  · intro hpre hstat hdev hsize hfresh
    rw [visitEntry_sameDevice env cfg cwd path st r hpre hstat hdev]
    rw [nodeStep_fresh cfg st _ _ r hsize hfresh]
    by_cases hdir : (S_ISDIR r.st_mode && cfg.follow) = true
    · simp [hdir, VisitOutcome.stateOf, snocState]
    · simp [hdir, VisitOutcome.stateOf, snocState]

/-- Witness for the amended C4: (a) under base `/b`, the root path
`../z` normalizes to `/z`, which escapes the base, so the visit is the
fatal assert; (b) in `envC2`, visiting `f` records the binding
`("f", 0)`. -/
theorem c4_abspath_resolution_witness :
    visitEntry envC2 (mkWalkCfg "/b" false false none 7) none "../z" freshState
      = .err .assertionError
    ∧ (visitEntry envC2 (mkWalkCfg "/b" false false none 7) none "f"
        freshState).stateOf.map WalkState.names = some [("f", 0)] := by
  constructor
  · exact (c4_abspath_resolution envC2 (mkWalkCfg "/b" false false none 7) none "../z"
      freshState rDirC2).1 rfl
  · exact (c4_abspath_resolution envC2 (mkWalkCfg "/b" false false none 7) none "f"
      freshState rFileC2).2 rfl rfl rfl rfl rfl

/-- Claim C5, counterexample: with the canonicalizer configured
relative-only over base `/foo`, adding the path `/foobar` (its own
canonical form: it is a real entry, not a symlink) is claimed to fail
with PathOutsideBase because `/foobar` does not lie under the directory
`/foo` — but the code's containment test is a string-prefix test
(line 34), which accepts it and accumulates the mangled remainder
`"ar"`. -/
theorem c5_counterexample :
    pathsAdd (fun s => s) { base := "/foo", relative_only := true, paths := [] }
        "/foobar"
      = .ok { base := "/foo", relative_only := true, paths := ["ar"] }
    ∧ ¬ liesUnder "/foo" "/foobar" :=
  ⟨rfl, by decide⟩

/-- Claim C5 as amended: for a NUL-free raw path under a relative-only
canonicalizer, if the canonical form does not START WITH the base string
the add fails with `ValueError` (PathOutsideBase), and otherwise the
canonical form with the first `len(base) + 1` characters dropped (the
empty result replaced by the sentinel `"."`) is accumulated into the
set. -/
theorem c5_relative_only_policy (resolve : String → String) (st : PathsState)
    (path : String) (hrel : st.relative_only = true)
    (hnul : pyContainsChar (pyStrip path) nulChar = false) :
    (pyStartswith (resolve (pyStrip path)) st.base = false →
      pathsAdd resolve st path
        = .error (.valueErrorNotUnder (resolve (pyStrip path)) st.base))
    ∧ (pyStartswith (resolve (pyStrip path)) st.base = true →
      pathsAdd resolve st path
        = .ok { st with
            paths := setAdd st.paths
              (if pyDrop (resolve (pyStrip path)) (pyLen st.base + 1) = "" then "."
               else pyDrop (resolve (pyStrip path)) (pyLen st.base + 1)) }) := by
  constructor
  · intro hpre
    simp [pathsAdd, realpathPy, hnul, addFinish, hrel, hpre]
  · intro hpre
    simp [pathsAdd, realpathPy, hnul, addFinish, hrel, hpre]

/-- Witness for the amended C5: a canonical form outside the base
raises, one under the base is accumulated stripped. -/
theorem c5_relative_only_policy_witness :
    pathsAdd (fun _ => "/elsewhere") { base := "/foo", relative_only := true, paths := [] }
        "q" = .error (.valueErrorNotUnder "/elsewhere" "/foo")
    ∧ pathsAdd (fun _ => "/foo/zz") { base := "/foo", relative_only := true, paths := [] }
        "q" = .ok { base := "/foo", relative_only := true, paths := ["zz"] } := by
  constructor
  · exact (c5_relative_only_policy (fun _ => "/elsewhere")
      { base := "/foo", relative_only := true, paths := [] } "q" rfl (by decide)).1
      (by decide)
  · exact (c5_relative_only_policy (fun _ => "/foo/zz")
      { base := "/foo", relative_only := true, paths := [] } "q" rfl (by decide)).2
      (by decide)

/-- Claim C6: an input with an embedded NUL is claimed to be truncated at
the first NUL before resolution, with the truncation's canonical form
accumulated.  The code violates this: the `except ValueError` handler
(lines 29-31) computes the truncated `non_zt_path` but never uses it — it
calls `os.path.realpath(path)` on the ORIGINAL string again, so the
`ValueError` escapes `Paths.add` and nothing is accumulated, for every
resolution environment and every canonicalizer state.  (The second
conjunct records the truncation the claim expected the code to use.) -/
theorem c6_nul_not_truncated (resolve : String → String) (st : PathsState) :
    pathsAdd resolve st "a\x00b" = .error .valueErrorNulByte
    ∧ takeUntilNul (pyStrip "a\x00b") = "a" := by
  constructor
  · simp [pathsAdd, realpathPy, show pyContainsChar (pyStrip "a\x00b") nulChar = true
      from by decide]
  · decide

/-- Claim C10: calling `new_node` with a name already present in the
NodeTable and `bailout` unset returns `None` and leaves the whole
aggregate — the NodeTable, the identity counter, the record collection
(and so also the identity previously assigned to that name) — exactly
unchanged. -/
theorem c10_new_node_frame (st : WalkState) (name : String)
    (h : (findName name st.names).isSome = true) :
    new_node false st name = .ok (none, st) := by
  simp [new_node, h]

theorem c10_new_node_frame_witness :
    new_node false stC3 "a" = .ok (none, stC3) :=
  c10_new_node_frame stC3 "a" (by decide)

/-- Claim C7: a relative name discovered a second time raises the
duplicate `ValueError` under `bailout` (part 1); without `bailout` the
duplicate visit only emits the duplicate warning and the walk continues
with the remaining entries (part 2, stated for an entry that triggers no
descent, where the continuation is exact); and in every completed
`bailout`-free walk the first-discovered binding and record of the name
are retained: the name still maps to its original identity `i`, it is
bound exactly once, and the record at index `i` is unchanged (part 3). -/
theorem c7_duplicate_policy (env : FSEnv) (cfg : WalkCfg) (fuel : Nat)
    (cwd : Option String) (path : String) (rest : List String) (st : WalkState)
    (r : StatResult) (i : Nat)
    (hpre : pyStartswith (walkerCanonical cfg.base cwd path) cfg.base = true)
    (hstat : env.stat (walkerCanonical cfg.base cwd path) = .ok r)
    (hdev : r.st_dev = cfg.dev)
    (hsize : sizeSkipB cfg.maxsize r = false)
    (hdup : findName (pyDrop (walkerCanonical cfg.base cwd path) cfg.base_len)
        st.names = some i) :
    (cfg.bailout = true →
      walkPaths env cfg (fuel + 1) cwd (path :: rest) st
        = .error (.valueErrorDuplicate
            (pyDrop (walkerCanonical cfg.base cwd path) cfg.base_len)))
    ∧ (cfg.bailout = false → (S_ISDIR r.st_mode && cfg.follow) = false →
      walkPaths env cfg (fuel + 1) cwd (path :: rest) st
        = walkPaths env cfg fuel cwd rest
            (addWarning st (.duplicateName
              (pyDrop (walkerCanonical cfg.base cwd path) cfg.base_len)
              (walkerCanonical cfg.base cwd path))))
    ∧ (cfg.bailout = false → goodState st →
       ∀ st2, walkPaths env cfg (fuel + 1) cwd (path :: rest) st = .ok st2 →
         st2.names.filter
             (fun p => p.1 == pyDrop (walkerCanonical cfg.base cwd path) cfg.base_len)
           = [(pyDrop (walkerCanonical cfg.base cwd path) cfg.base_len, i)]
         ∧ st2.stat_objects.getD i defaultStatObject
           = st.stat_objects.getD i defaultStatObject) := by
  refine ⟨?_, ?_, ?_⟩
  · intro hb
    apply walkPaths_cons_err
    apply walkHead_err
    rw [visitEntry_sameDevice env cfg cwd path st r hpre hstat hdev]
    rw [nodeStep_duplicate cfg st _ _ r i hsize hdup]
    simp [hb]
  · intro hb hdir
    apply walkPaths_cons_ok
    apply walkHead_done
    rw [visitEntry_sameDevice env cfg cwd path st r hpre hstat hdev]
    rw [nodeStep_duplicate cfg st _ _ r i hsize hdup]
    simp [hb, hdir]
  · intro hb hg st2 hw
    have hx := walkPaths_extends env cfg (fuel + 1) cwd (path :: rest) st st2 hw
    obtain ⟨⟨t, hnames⟩, ⟨u, hobjs⟩, hinode, hgood⟩ := hx
    have hg2 := hgood hg
    constructor
    · exact filter_key_eq_of_findName hg2.2.2.2
        (hnames ▸ findName_append_left t hdup)
    · have hmem := findName_mem hdup
      have hrange : i ∈ List.range st.inode := by
        rw [← hg.1]
        exact List.mem_map_of_mem Prod.snd hmem
      have hilt : i < st.stat_objects.length := by
        rw [hg.2.1]
        exact List.mem_range.mp hrange
      rw [hobjs, List.getD_append _ _ _ _ hilt]

/-- Concrete fixtures for the C7 witness: base `/b` on device `7`
containing the regular file `d`, whose name is already recorded with
identity `0` in the pre-state. -/
def envC7 : FSEnv :=
  { stat := fun s =>
      if s = "/b/d" then .ok rFileC2 else .notFound,
    listdir := fun _ => .notFound }

def stC7 : WalkState :=
  { inode := 1, names := [("d", 0)],
    stat_objects := [StatObject.ofStat rFileC2 0], warnings := [] }

theorem c7_duplicate_policy_witness :
    walkPaths envC7 (mkWalkCfg "/b" false true none 7) 1 none ["d"] stC7
      = .error (.valueErrorDuplicate "d")
    ∧ walkPaths envC7 (mkWalkCfg "/b" false false none 7) 1 none ["d"] stC7
      = walkPaths envC7 (mkWalkCfg "/b" false false none 7) 0 none []
          (addWarning stC7 (.duplicateName "d" "/b/d"))
    ∧ ((addWarning stC7 (.duplicateName "d" "/b/d")).names.filter
          (fun p => p.1 == "d") = [("d", 0)]
      ∧ (addWarning stC7 (.duplicateName "d" "/b/d")).stat_objects.getD 0
            defaultStatObject
        = stC7.stat_objects.getD 0 defaultStatObject) := by
  refine ⟨?_, ?_, ?_⟩
  · exact (c7_duplicate_policy envC7 (mkWalkCfg "/b" false true none 7) 0 none "d" []
      stC7 rFileC2 0 rfl rfl rfl rfl rfl).1 rfl
  · exact (c7_duplicate_policy envC7 (mkWalkCfg "/b" false false none 7) 0 none "d" []
      stC7 rFileC2 0 rfl rfl rfl rfl rfl).2.1 rfl rfl
  · exact (c7_duplicate_policy envC7 (mkWalkCfg "/b" false false none 7) 0 none "d" []
      stC7 rFileC2 0 rfl rfl rfl rfl rfl).2.2 rfl (by decide)
      (addWarning stC7 (.duplicateName "d" "/b/d")) rfl

/-- Claim C8: an entry whose device id differs from the base directory's
device id contributes nothing to the snapshot: the walk continues with
the remaining entries on a state changed only by the cross-device
warning — in particular the entry itself creates no node, nothing
beneath it is ever visited (no descent happens, whatever the mode bits
and the `follow` flag say), and the walk does not abort. -/
theorem c8_device_boundary (env : FSEnv) (cfg : WalkCfg) (fuel : Nat)
    (cwd : Option String) (path : String) (rest : List String) (st : WalkState)
    (r : StatResult)
    (hpre : pyStartswith (walkerCanonical cfg.base cwd path) cfg.base = true)
    (hstat : env.stat (walkerCanonical cfg.base cwd path) = .ok r)
    (hdev : r.st_dev ≠ cfg.dev) :
    walkPaths env cfg (fuel + 1) cwd (path :: rest) st
      = walkPaths env cfg fuel cwd rest
          (addWarning st (.crossDevice (walkerCanonical cfg.base cwd path))) := by
  apply walkPaths_cons_ok
  apply walkHead_done
  exact visitEntry_crossDevice env cfg cwd path st r hpre hstat hdev

/-- Fixture for the C8 witness: under base `/b` (device `7`), the entry
`m` is a directory on device `9`; `follow` is set. -/
def rC8 : StatResult :=
  { st_mode := 0o040755, st_dev := 9, st_gid := 0, st_uid := 0,
    st_mtime := 1, st_ctime := 2, st_size := 4096 }

def envC8 : FSEnv :=
  { stat := fun s =>
      if s = "/b" then .ok rDirC2
      else if s = "/b/m" then .ok rC8
      else .notFound,
    listdir := fun _ => .permissionDenied }

theorem c8_device_boundary_witness :
    walkPaths envC8 (mkWalkCfg "/b" true false none 7) 1 none ["m"] freshState
      = walkPaths envC8 (mkWalkCfg "/b" true false none 7) 0 none []
          (addWarning freshState (.crossDevice "/b/m")) :=
  c8_device_boundary envC8 (mkWalkCfg "/b" true false none 7) 0 none "m" []
    freshState rC8 rfl rfl (by decide)

/-- Claim C9: when the stat of a visited entry fails because the entry no
longer exists, the walk fails with the `FileNotFoundError` under
`bailout` (part 1) and silently skips the entry otherwise — no node, no
warning, continue with the rest (part 2); but when listing a directory's
children fails because the directory vanished, the walk fails (the
`assert False` of line 224) regardless of `bailout` (part 3). -/
theorem c9_race_policy (env : FSEnv) (cfg : WalkCfg) (fuel : Nat)
    (cwd : Option String) (path : String) (rest : List String) (st : WalkState)
    (r : StatResult)
    (hpre : pyStartswith (walkerCanonical cfg.base cwd path) cfg.base = true) :
    (env.stat (walkerCanonical cfg.base cwd path) = .notFound → cfg.bailout = true →
      walkPaths env cfg (fuel + 1) cwd (path :: rest) st = .error .fileNotFoundError)
    ∧ (env.stat (walkerCanonical cfg.base cwd path) = .notFound → cfg.bailout = false →
      walkPaths env cfg (fuel + 1) cwd (path :: rest) st
        = walkPaths env cfg fuel cwd rest st)
    ∧ (env.stat (walkerCanonical cfg.base cwd path) = .ok r → r.st_dev = cfg.dev →
       sizeSkipB cfg.maxsize r = false →
       findName (pyDrop (walkerCanonical cfg.base cwd path) cfg.base_len) st.names
         = none →
       S_ISDIR r.st_mode = true → cfg.follow = true →
       env.listdir (walkerAbs cfg.base cwd path) = .notFound →
       walkPaths env cfg (fuel + 1) cwd (path :: rest) st
         = .error .assertionError) := by
  refine ⟨?_, ?_, ?_⟩
  · intro hstat hb
    apply walkPaths_cons_err
    apply walkHead_err
    rw [visitEntry_statNotFound env cfg cwd path st hpre hstat]
    simp [hb]
  · intro hstat hb
    apply walkPaths_cons_ok
    apply walkHead_done
    rw [visitEntry_statNotFound env cfg cwd path st hpre hstat]
    simp [hb]
  · intro hstat hdev hsize hfresh hisdir hfollow hlist
    apply walkPaths_cons_err
    rw [walkHead_descend env cfg fuel cwd path st (snocState st
        (pyDrop (walkerCanonical cfg.base cwd path) cfg.base_len) r)
        (walkerAbs cfg.base cwd path) (relPathOf cwd path)
        (walkerCanonical cfg.base cwd path) ?_]
    · rw [hlist]
    · rw [visitEntry_sameDevice env cfg cwd path st r hpre hstat hdev]
      rw [nodeStep_fresh cfg st _ _ r hsize hfresh]
      simp [hisdir, hfollow]

/-- Fixture for the C9 witness: base `/b` on device `7` contains the
directory `d`; the entry `gone` does not exist, and every directory
listing reports the directory as vanished. -/
def envC9 : FSEnv :=
  { stat := fun s =>
      if s = "/b" then .ok rDirC2
      else if s = "/b/d" then .ok rDirC2
      else .notFound,
    listdir := fun _ => .notFound }

theorem c9_race_policy_witness :
    walkPaths envC9 (mkWalkCfg "/b" true true none 7) 1 none ["gone"] freshState
      = .error .fileNotFoundError
    ∧ walkPaths envC9 (mkWalkCfg "/b" true false none 7) 1 none ["gone"] freshState
      = walkPaths envC9 (mkWalkCfg "/b" true false none 7) 0 none [] freshState
    ∧ walkPaths envC9 (mkWalkCfg "/b" true false none 7) 1 none ["d"] freshState
      = .error .assertionError := by
  refine ⟨?_, ?_, ?_⟩
  · exact (c9_race_policy envC9 (mkWalkCfg "/b" true true none 7) 0 none "gone" []
      freshState rDirC2 rfl).1 rfl rfl
  · exact (c9_race_policy envC9 (mkWalkCfg "/b" true false none 7) 0 none "gone" []
      freshState rDirC2 rfl).2.1 rfl rfl
  · exact (c9_race_policy envC9 (mkWalkCfg "/b" true false none 7) 0 none "d" []
      freshState rDirC2 rfl).2.2 rfl rfl rfl rfl (by decide) rfl rfl

end Profs
